import Mathlib

/-!
# Verification of `image_builder/build_image.py`

A shallow embedding of the Apptainer image-builder script. The script is a
linear sequence of HTTP request/response steps; we model the remote API as a
script (list) of `Response` values consumed in order, and each Python function
as a pure Lean function that consumes responses, emits a trace of the HTTP
calls it issued, and produces an outcome (normal return, raised exception, or
exhaustion of the scripted responses, the latter standing for an interaction
that would keep polling forever on a finite script).

JSON values are modelled by the inductive `JsonVal`; `response.json()["k"]`
becomes `JsonVal.getField`, and `requests.Response.raise_for_status`, which
raises exactly for status codes in 400..599, becomes `isHttpError`.
-/

namespace BuildImage

/-- JSON values, the shape of every response body and request payload. -/
inductive JsonVal where
  | null : JsonVal
  | str : String → JsonVal
  | num : Int → JsonVal
  | arr : List JsonVal → JsonVal
  | obj : List (String × JsonVal) → JsonVal
  deriving Repr

/-- Dictionary field access, `d["k"]` on a JSON object; `none` models the
Python `KeyError` (or a type error on a non-dict). -/
def JsonVal.getField : JsonVal → String → Option JsonVal
  | .obj kvs, k => kvs.lookup k
  | _, _ => none

/-- List element access, `xs[i]`; `none` models `IndexError`. -/
def JsonVal.getIdx : JsonVal → Nat → Option JsonVal
  | .arr xs, i => xs.get? i
  | _, _ => none

/-- Python equality test `v == s` between a JSON value and a string literal:
true exactly when `v` is that string (a non-string compares unequal). -/
def JsonVal.eqStr : JsonVal → String → Bool
  | .str t, s => t = s
  | _, _ => false

/-- An HTTP response as the script sees it: status code plus parsed body. -/
structure Response where
  status_code : Nat
  body : JsonVal
  deriving Repr

/-- `requests.Response.raise_for_status` raises exactly for 4xx and 5xx
status codes: those in the interval 400..599. -/
def isHttpError (code : Nat) : Bool :=
  decide (400 ≤ code ∧ code < 600)

/-- Outcome of running one of the script functions against a response
script. `ok` is a normal return (for the monitor, the `break` on
"Completed"); `exn` is a raised exception (`raise_for_status`, `KeyError`,
`IndexError`, or the bare `raise Exception()`); `exhausted` means the
function asked for one more response than the finite script provides, i.e.
on an infinite continuation it would keep interacting. -/
inductive Outcome where
  | ok : Outcome
  | exn : Outcome
  | exhausted : Outcome
  deriving DecidableEq, Repr

/-! ## `_upload_file`

Uploads one file and returns `response.json()["id"]` after
`raise_for_status`. The multipart request payload does not depend on the
response, so the embedding is a function of the single response. -/

/-- Embedding of `_upload_file`: `raise_for_status`, then return the
body field `"id"`. `Except.error ()` is the raised exception. -/
def uploadFile (r : Response) : Except Unit JsonVal :=
  if isHttpError r.status_code then .error ()
  else
    match r.body.getField "id" with
    | some v => .ok v
    | none => .error ()

/-! ## Module constants and `JobSpec`

The module-level constants of `build_image.py` and the `JobSpec` /
`ApiSpec` named tuples. -/

def BASE_HOST : String := "eu.rescale.com"

def ANALYSIS_CODE : String := "user_included_apptainer_container"

def ANALYSIS_VERSION : String := "1.0.1"

def CORETYPE : String := "emerald"

def CORE_COUNT : Int := 2

def WALLTIME : Int := 2

/-- The `JobSpec` named tuple: parameter holder for job related properties. -/
structure JobSpec where
  name : String
  deffile_path : String
  buildscript_path : String
  project : String
  analysis_code : String
  analysis_version : String
  coretype : String
  core_count : Int
  walltime : Int
  deriving Repr

/-- The `ApiSpec` named tuple: parameter holder for API related properties. -/
structure ApiSpec where
  basehost : String
  apikey : String
  deriving Repr

/-- The `JobSpec` as built in `__main__`: CLI arguments plus the fixed
module constants. -/
def mainJobSpec (jobname deffile buildscript project : String) : JobSpec :=
  ⟨jobname, deffile, buildscript, project,
    ANALYSIS_CODE, ANALYSIS_VERSION, CORETYPE, CORE_COUNT, WALLTIME⟩

/-- `os.path.basename` on a POSIX path: the suffix after the last `/`
(the whole path when it contains no `/`). -/
def basename (p : String) : String :=
  String.mk ((p.data.reverse.takeWhile fun c => c ≠ '/').reverse)

/-! ## `_create_build_job`

The function posts `jobspec_json` and returns the created job id. The
payload construction is the content of claims C3, C8 and C9, so it is a
standalone definition mirroring the Python dict literal. -/

/-- Embedding of the `jobspec_json` dict literal built inside
`_create_build_job`. -/
def jobspecJson (file_ids : List String) (jobspec : JobSpec) : JsonVal :=
  .obj [
    ("name", .str jobspec.name),
    ("description", .str "Apptainer Image Build Job"),
    ("jobanalyses", .arr [
      .obj [
        ("analysis", .obj [
          ("code", .str jobspec.analysis_code),
          ("version", .str jobspec.analysis_version)]),
        ("command", .str ("sh " ++ basename jobspec.buildscript_path)),
        ("hardware", .obj [
          ("coresPerSlot", .num jobspec.core_count),
          ("slots", .num 1),
          ("walltime", .num jobspec.walltime),
          ("type", .str "compute"),
          ("coreType", .str jobspec.coretype)]),
        ("inputFiles", .arr (file_ids.map fun id => .obj [("id", .str id)]))
      ]])]

/-- Embedding of `_create_build_job` after the payload is posted:
`raise_for_status`, then return the body field `"id"` as the job id. -/
def createBuildJob (r : Response) : Except Unit JsonVal :=
  if isHttpError r.status_code then .error ()
  else
    match r.body.getField "id" with
    | some v => .ok v
    | none => .error ()

/-! ## `_monitor_job`

The outer `while True` loop polls `/statuses/`; a nested `while True` loop
polls `/cluster_statuses/` until the status code is not 404 (sleeping 5s
between attempts); the outer loop breaks when the job status equals
"Completed" and otherwise sleeps `status_poll_sleep` (default 30) seconds
and repeats. Both loops consume one scripted response per HTTP GET. -/

/-- The two HTTP GETs issued by `_monitor_job`. -/
inductive MonCall where
  | jobPoll : MonCall
  | clusterPoll : MonCall
  deriving DecidableEq, Repr

/-- `response.json()["results"][0]` on a body. -/
def jsonResults0 (b : JsonVal) : Option JsonVal :=
  match b.getField "results" with
  | some (.arr xs) => xs.get? 0
  | _ => none

/-- The control point of `_monitor_job` between two HTTP GETs: about to
poll `/statuses/` at the top of the outer loop, or inside the nested
cluster-status loop, holding `job_status` (already extracted as
`results[0]` of the last job-status response). -/
inductive MonState where
  | pollJob : MonState
  | pollCluster : JsonVal → MonState

/-- Embedding of `_monitor_job`, one consumed response per step. In state
`pollJob`: GET `/statuses/` with `raise_for_status` and extract
`results[0]` into `job_status`, then enter the nested loop. In state
`pollCluster job_status`: GET `/cluster_statuses/`; on a 404 sleep 5s and
stay in the nested loop; otherwise `raise_for_status`, extract
`results[0]`, log both `["status"]` fields (a missing key raises), `break`
the outer loop when the job status equals "Completed", and otherwise sleep
`status_poll_sleep` seconds and return to the top of the outer loop. -/
def monitorRun : MonState → List Response → List MonCall × Outcome
  | _, [] => ([], .exhausted)
  | .pollJob, r :: rest =>
    if isHttpError r.status_code then ([.jobPoll], .exn)
    else
      match jsonResults0 r.body with
      | none => ([.jobPoll], .exn)
      | some js =>
        let sub := monitorRun (.pollCluster js) rest
        (.jobPoll :: sub.1, sub.2)
  | .pollCluster js, r :: rest =>
    if r.status_code = 404 then
      let sub := monitorRun (.pollCluster js) rest
      (.clusterPoll :: sub.1, sub.2)
    else if isHttpError r.status_code then ([.clusterPoll], .exn)
    else
      match jsonResults0 r.body with
      | none => ([.clusterPoll], .exn)
      | some cs =>
        match js.getField "status", cs.getField "status" with
        | some jstat, some _ =>
          if jstat.eqStr "Completed" then ([.clusterPoll], .ok)
          else
            let sub := monitorRun .pollJob rest
            (.clusterPoll :: sub.1, sub.2)
        | _, _ => ([.clusterPoll], .exn)

/-- Embedding of `_monitor_job` on a response script: start at the top of
the outer loop. -/
def monitor (script : List Response) : List MonCall × Outcome :=
  monitorRun .pollJob script

/-! ## `_link_outfile_with_folder`

Searches the job output files for `.sif` matches, requires exactly one,
looks up (or creates, tolerating a 400) the `apptainer_images` folder,
associates the `.sif` file with it, and re-tags the file type. Five HTTP
calls at most, consumed from the script in order. -/

/-- The HTTP calls issued by `_link_outfile_with_folder`, with the ids the
later request payloads and URLs carry. -/
inductive LinkCall where
  | sifSearch : LinkCall
  | folderList : LinkCall
  | folderCreate : LinkCall
  | folderAssociate : JsonVal → JsonVal → LinkCall
  | typeChange : JsonVal → LinkCall
  deriving Repr

/-- `response.json()["results"]` as a list. -/
def jsonResultsList (b : JsonVal) : Option (List JsonVal) :=
  match b.getField "results" with
  | some (.arr xs) => some xs
  | _ => none

/-- The list comprehension `[f for f in folders if f["name"] == name]`:
`none` models the `KeyError` when some element has no `"name"` key. -/
def filterByName : List JsonVal → String → Option (List JsonVal)
  | [], _ => some []
  | f :: fs, name =>
    match f.getField "name" with
    | none => none
    | some v =>
      match filterByName fs name with
      | none => none
      | some rest => some (if v.eqStr name then f :: rest else rest)

/-- Embedding of the last two calls of `_link_outfile_with_folder`: POST the
file-to-folder association (URL carries `folder_id`, payload carries
`sif_file_id`), `raise_for_status`, then POST the bulk type change (payload
carries `sif_file_id`), `raise_for_status`. -/
def assocAndTag (sifId folderId : JsonVal) :
    List Response → List LinkCall × Outcome
  | [] => ([], .exhausted)
  | r4 :: s4 =>
    if isHttpError r4.status_code then ([.folderAssociate folderId sifId], .exn)
    else
      match s4 with
      | [] => ([.folderAssociate folderId sifId], .exhausted)
      | r5 :: _ =>
        if isHttpError r5.status_code then
          ([.folderAssociate folderId sifId, .typeChange sifId], .exn)
        else ([.folderAssociate folderId sifId, .typeChange sifId], .ok)

/-- Embedding of the folder phase of `_link_outfile_with_folder`: GET the
folder list (the body itself is the list), filter it by the folder name
`apptainer_images`; when no folder matches, POST a folder creation and
accept status 201 or 400 (`raise_for_status` otherwise), extracting
`response.json()["id"]`; when one matches, reuse `images_folder[0]["id"]`.
Then associate and re-tag. -/
def folderPhase (sifId : JsonVal) : List Response → List LinkCall × Outcome
  | [] => ([], .exhausted)
  | r2 :: s2 =>
    if isHttpError r2.status_code then ([.folderList], .exn)
    else
      match r2.body with
      | .arr folders =>
        match filterByName folders "apptainer_images" with
        | none => ([.folderList], .exn)
        | some images_folder =>
          match images_folder with
          | [] =>
            match s2 with
            | [] => ([.folderList], .exhausted)
            | r3 :: s3 =>
              if (r3.status_code ≠ 201 ∧ r3.status_code ≠ 400) ∧
                  isHttpError r3.status_code then
                ([.folderList, .folderCreate], .exn)
              else
                match r3.body.getField "id" with
                | none => ([.folderList, .folderCreate], .exn)
                | some folderId =>
                  let sub := assocAndTag sifId folderId s3
                  (.folderList :: .folderCreate :: sub.1, sub.2)
          | f0 :: _ =>
            match f0.getField "id" with
            | none => ([.folderList], .exn)
            | some folderId =>
              let sub := assocAndTag sifId folderId s2
              (.folderList :: sub.1, sub.2)
      | _ => ([.folderList], .exn)

/-- Embedding of `_link_outfile_with_folder`: GET the `.sif` file search
with `raise_for_status`, require `len(results) == 1` (a bare
`raise Exception()` otherwise), take `results[0]["id"]`, then run the
folder phase. -/
def linkOutfile : List Response → List LinkCall × Outcome
  | [] => ([], .exhausted)
  | r1 :: s1 =>
    if isHttpError r1.status_code then ([.sifSearch], .exn)
    else
      match jsonResultsList r1.body with
      | none => ([.sifSearch], .exn)
      | some files =>
        match files with
        | [f] =>
          match f.getField "id" with
          | none => ([.sifSearch], .exn)
          | some sifId =>
            let sub := folderPhase sifId s1
            (.sifSearch :: sub.1, sub.2)
        | _ => ([.sifSearch], .exn)

/-! ## `_display_process_output`

GET the process-output file search, take `results[0]["id"]`, GET that
lines of that file and print each. -/

/-- The two HTTP calls issued by `_display_process_output`. -/
inductive DispCall where
  | outputSearch : DispCall
  | linesFetch : JsonVal → DispCall
  deriving Repr

/-- Embedding of `_display_process_output`: the middle component is the
list of lines printed to stdout. -/
def displayProcessOutput :
    List Response → List DispCall × List JsonVal × Outcome
  | [] => ([], [], .exhausted)
  | r1 :: s1 =>
    if isHttpError r1.status_code then ([.outputSearch], [], .exn)
    else
      match jsonResults0 r1.body with
      | none => ([.outputSearch], [], .exn)
      | some f =>
        match f.getField "id" with
        | none => ([.outputSearch], [], .exn)
        | some fid =>
          match s1 with
          | [] => ([.outputSearch], [], .exhausted)
          | r2 :: _ =>
            if isHttpError r2.status_code then
              ([.outputSearch, .linesFetch fid], [], .exn)
            else
              match r2.body.getField "lines" with
              | some (.arr lines) => ([.outputSearch, .linesFetch fid], lines, .ok)
              | _ => ([.outputSearch, .linesFetch fid], [], .exn)

/-! ## Response shapes and predicates used to state the claims -/

/-- A well-formed status response: HTTP 200 whose body carries
`results[0]["status"]`. Used to script job-status and cluster-status
endpoints. -/
def statusResp (s : String) : Response :=
  ⟨200, .obj [("results", .arr [.obj [("status", .str s)]])]⟩

/-- A response the cluster-status endpoint can answer with so that the
monitor proceeds: status 200 and a body with `results[0]["status"]`. -/
def goodClusterResp (r : Response) : Prop :=
  r.status_code = 200 ∧
  ∃ cs w, jsonResults0 r.body = some cs ∧ cs.getField "status" = some w

/-- `results[0]["status"] == "Completed"` on an extracted job status. -/
def jsCompleted (js : JsonVal) : Bool :=
  match js.getField "status" with
  | some v => v.eqStr "Completed"
  | none => false

/-- A response whose `results[0]["status"]` equals "Completed". -/
def isCompletedResp (r : Response) : Bool :=
  match jsonResults0 r.body with
  | some js => jsCompleted js
  | none => false

/-- A polled response that keeps the monitor looping: HTTP 200 with a
`results[0]["status"]` different from "Completed". -/
def nonCompletedPoll (r : Response) : Prop :=
  r.status_code = 200 ∧
  ∃ js v, jsonResults0 r.body = some js ∧ js.getField "status" = some v ∧
    v.eqStr "Completed" = false

/-- A monitor state consistent with non-completed polls so far. -/
def stOk : MonState → Prop
  | .pollJob => True
  | .pollCluster js =>
    ∃ v, js.getField "status" = some v ∧ v.eqStr "Completed" = false

/-! ## Claims about the job-creation payload -/

/-- C3: for every list of file ids and every JobSpec, the posted job payload
contains exactly one entry in its "jobanalyses" list, and that entry has as
its "inputFiles" list exactly one object per supplied file id, wrapping the
ids in the order they were supplied. -/
theorem create_build_job_payload_shape (file_ids : List String)
    (jobspec : JobSpec) :
    ∃ entry : JsonVal,
      (jobspecJson file_ids jobspec).getField "jobanalyses" =
        some (.arr [entry]) ∧
      entry.getField "inputFiles" =
        some (.arr (file_ids.map fun f => .obj [("id", .str f)])) :=
  ⟨_, rfl, rfl⟩

/-- C8: with the JobSpec built in main from the module constants, the single
job-analysis of the payload uses analysis code
user_included_apptainer_container, version 1.0.1, hardware with
coresPerSlot 2, slots 1, walltime 2 and coreType emerald, and the command
"sh " followed by the basename of the build-script path. -/
theorem fixed_constants_in_payload (jobname deffile buildscript project : String)
    (file_ids : List String) :
    (jobspecJson file_ids
        (mainJobSpec jobname deffile buildscript project)).getField
      "jobanalyses" =
      some (.arr [.obj [
        ("analysis", .obj [
          ("code", .str "user_included_apptainer_container"),
          ("version", .str "1.0.1")]),
        ("command", .str ("sh " ++ basename buildscript)),
        ("hardware", .obj [
          ("coresPerSlot", .num 2),
          ("slots", .num 1),
          ("walltime", .num 2),
          ("type", .str "compute"),
          ("coreType", .str "emerald")]),
        ("inputFiles", .arr (file_ids.map fun f => .obj [("id", .str f)]))]]) :=
  rfl

/-- C9: two JobSpec values that differ only in the project field produce
identical job-creation payloads; the optional project id never influences
the posted payload. -/
theorem project_noninterference (file_ids : List String) (s : JobSpec)
    (p q : String) :
    jobspecJson file_ids { s with project := p } =
      jobspecJson file_ids { s with project := q } :=
  rfl

/-! ## Claims about `_upload_file` -/

/-- C7 counterexample: a 301 response is not 2xx, yet `_upload_file` does not
raise on it; `raise_for_status` only raises for status codes 400..599, so
the function returns the id from the 301 body. This refutes the claim that
every non-2xx response raises. -/
theorem upload_file_non2xx_counterexample :
    (301 < 200 ∨ 300 ≤ 301) ∧
      uploadFile ⟨301, .obj [("id", .str "FILE1")]⟩ = .ok (.str "FILE1") :=
  ⟨Or.inr (by decide), rfl⟩

/-- C7 (amended): if the upload response status code is outside 400..599 and
the body carries an "id" field, the function returns that id; if the status
code is in 400..599 the function raises and returns no id. -/
theorem upload_file_status_handling (r : Response) (v : JsonVal) :
    (isHttpError r.status_code = true → uploadFile r = .error ()) ∧
    (isHttpError r.status_code = false → r.body.getField "id" = some v →
      uploadFile r = .ok v) := by
  constructor
  · intro h
    simp [uploadFile, h]
  · intro h hid
    simp [uploadFile, h, hid]

theorem upload_file_status_handling_witness :
    uploadFile ⟨500, .obj []⟩ = .error () ∧
    uploadFile ⟨200, .obj [("id", .str "A")]⟩ = .ok (.str "A") :=
  ⟨(upload_file_status_handling ⟨500, .obj []⟩ .null).1 rfl,
   (upload_file_status_handling ⟨200, .obj [("id", .str "A")]⟩
      (.str "A")).2 rfl rfl⟩

/-! ## Claim about unguarded first-result indexing -/

/-- C10: both `_display_process_output` and `_monitor_job` index
`results[0]` without an emptiness check: a 200 response whose "results"
list is empty makes each of them raise after its first HTTP call. -/
theorem results0_unguarded (r : Response) (rest : List Response)
    (h200 : r.status_code = 200)
    (hres : r.body.getField "results" = some (.arr [])) :
    displayProcessOutput (r :: rest) = ([.outputSearch], [], .exn) ∧
    monitor (r :: rest) = ([.jobPoll], .exn) := by
  have h0 : jsonResults0 r.body = none := by
    simp [jsonResults0, hres]
  have herr : isHttpError r.status_code = false := by
    rw [h200]
    rfl
  constructor
  · simp [displayProcessOutput, h0, herr]
  · simp [monitor, monitorRun, h0, herr]

theorem results0_unguarded_witness :
    displayProcessOutput [⟨200, .obj [("results", .arr [])]⟩] =
      ([.outputSearch], [], .exn) ∧
    monitor [⟨200, .obj [("results", .arr [])]⟩] = ([.jobPoll], .exn) :=
  results0_unguarded ⟨200, .obj [("results", .arr [])]⟩ [] rfl rfl

/-! ## Claims about `_monitor_job` -/

theorem statusResp_code (s : String) : (statusResp s).status_code = 200 :=
  rfl

theorem statusResp_results0 (s : String) :
    jsonResults0 (statusResp s).body = some (.obj [("status", .str s)]) :=
  rfl

theorem obj_status_getField (s : String) :
    (JsonVal.obj [("status", .str s)]).getField "status" = some (.str s) :=
  rfl

theorem isHttpError_200 : isHttpError 200 = false := rfl

theorem eqStr_submitted : (JsonVal.str "Submitted").eqStr "Completed" = false :=
  rfl

theorem eqStr_running : (JsonVal.str "Running").eqStr "Completed" = false :=
  rfl

theorem eqStr_completed : (JsonVal.str "Completed").eqStr "Completed" = true :=
  rfl

/-- C4: on the scripted job-status sequence Submitted, Running, Completed,
with cluster-status responses always available, the polling loop terminates
exactly at the Completed poll, issuing one job-status poll per iteration:
three job-status polls in total, each followed by one cluster poll. -/
theorem monitor_scripted_termination (c1 c2 c3 : Response)
    (h1 : goodClusterResp c1) (h2 : goodClusterResp c2)
    (h3 : goodClusterResp c3) :
    monitor [statusResp "Submitted", c1, statusResp "Running", c2,
        statusResp "Completed", c3] =
      ([.jobPoll, .clusterPoll, .jobPoll, .clusterPoll, .jobPoll,
        .clusterPoll], .ok) ∧
    ([MonCall.jobPoll, .clusterPoll, .jobPoll, .clusterPoll, .jobPoll,
        .clusterPoll].count .jobPoll) = 3 := by
  obtain ⟨e1, cs1, w1, f1, g1⟩ := h1
  obtain ⟨e2, cs2, w2, f2, g2⟩ := h2
  obtain ⟨e3, cs3, w3, f3, g3⟩ := h3
  refine ⟨?_, by decide⟩
  simp [monitor, monitorRun, statusResp_code, statusResp_results0,
    obj_status_getField, isHttpError_200, eqStr_submitted, eqStr_running,
    eqStr_completed, e1, e2, e3, f1, f2, f3, g1, g2, g3]

theorem monitor_scripted_termination_witness :
    monitor [statusResp "Submitted", statusResp "a", statusResp "Running",
        statusResp "b", statusResp "Completed", statusResp "c"] =
      ([.jobPoll, .clusterPoll, .jobPoll, .clusterPoll, .jobPoll,
        .clusterPoll], .ok) ∧
    ([MonCall.jobPoll, .clusterPoll, .jobPoll, .clusterPoll, .jobPoll,
        .clusterPoll].count .jobPoll) = 3 :=
  monitor_scripted_termination (statusResp "a") (statusResp "b")
    (statusResp "c")
    ⟨rfl, .obj [("status", .str "a")], .str "a", rfl, rfl⟩
    ⟨rfl, .obj [("status", .str "b")], .str "b", rfl, rfl⟩
    ⟨rfl, .obj [("status", .str "c")], .str "c", rfl, rfl⟩

/-- C5: when the cluster-status endpoint answers 404 any finite number of
times and then 200, the nested retry loop consumes every 404 without
raising, exits at the 200 response, and the monitor proceeds using it: when
the pending job status is not "Completed" the outer loop continues with the
rest of the script, and a full monitor run scripted this way does the same
after its initial job-status poll. -/
theorem cluster_status_retry (n : Nat) (r404 okr : Response)
    (rest : List Response) (js v : JsonVal)
    (h404 : r404.status_code = 404) (hok : goodClusterResp okr)
    (hjs : js.getField "status" = some v)
    (hnc : v.eqStr "Completed" = false) :
    monitorRun (.pollCluster js) (List.replicate n r404 ++ okr :: rest) =
      (List.replicate (n + 1) MonCall.clusterPoll ++
          (monitorRun .pollJob rest).1,
        (monitorRun .pollJob rest).2) ∧
    monitor (statusResp "Running" ::
        (List.replicate n r404 ++ okr :: rest)) =
      (.jobPoll :: (List.replicate (n + 1) MonCall.clusterPoll ++
          (monitorRun .pollJob rest).1),
        (monitorRun .pollJob rest).2) := by
  obtain ⟨e, cs, w, f, g⟩ := hok
  have ha : ∀ js2 v2 : JsonVal, js2.getField "status" = some v2 →
      v2.eqStr "Completed" = false →
      monitorRun (.pollCluster js2) (List.replicate n r404 ++ okr :: rest) =
        (List.replicate (n + 1) MonCall.clusterPoll ++
            (monitorRun .pollJob rest).1,
          (monitorRun .pollJob rest).2) := by
    intro js2 v2 hjs2 hnc2
    induction n with
    | zero =>
      simp [monitorRun, e, f, g, hjs2, hnc2, isHttpError_200]
    | succ k ih =>
      simp [List.replicate_succ, monitorRun, h404, ih]
  refine ⟨ha js v hjs hnc, ?_⟩
  have hb := ha (.obj [("status", .str "Running")]) (.str "Running") rfl rfl
  rw [monitor]
  simp [monitorRun, statusResp_code, statusResp_results0, isHttpError_200,
    hb]

theorem monitorRun_ok_mem (script : List Response) :
    ∀ (st : MonState) (tr : List MonCall),
      monitorRun st script = (tr, Outcome.ok) →
      (∃ r ∈ script, isCompletedResp r = true) ∨
      ∃ js, st = MonState.pollCluster js ∧ jsCompleted js = true := by
  induction script with
  | nil =>
    intro st tr h
    cases st <;> simp [monitorRun] at h
  | cons r rest ih =>
    intro st tr h
    cases st with
    | pollJob =>
      simp only [monitorRun] at h
      split at h
      · simp at h
      · split at h
        · simp at h
        · rename_i js hjs
          have h2 : (monitorRun (MonState.pollCluster js) rest).2 =
              Outcome.ok := by
            simpa using congrArg Prod.snd h
          rcases ih (MonState.pollCluster js)
              (monitorRun (MonState.pollCluster js) rest).1
              (show monitorRun (MonState.pollCluster js) rest =
                ((monitorRun (MonState.pollCluster js) rest).1,
                  Outcome.ok) by rw [← h2]) with hmem | ⟨js2, hjeq, hcomp⟩
          · obtain ⟨x, hx, hcx⟩ := hmem
            exact Or.inl ⟨x, List.mem_cons_of_mem _ hx, hcx⟩
          · cases hjeq
            refine Or.inl ⟨r, List.mem_cons_self .., ?_⟩
            simp [isCompletedResp, hjs, hcomp]
    | pollCluster js =>
      simp only [monitorRun] at h
      split at h
      · have h2 : (monitorRun (MonState.pollCluster js) rest).2 =
            Outcome.ok := by
          simpa using congrArg Prod.snd h
        rcases ih (MonState.pollCluster js)
            (monitorRun (MonState.pollCluster js) rest).1
            (show monitorRun (MonState.pollCluster js) rest =
              ((monitorRun (MonState.pollCluster js) rest).1,
                Outcome.ok) by rw [← h2]) with hmem | ⟨js2, hjeq, hcomp⟩
        · obtain ⟨x, hx, hcx⟩ := hmem
          exact Or.inl ⟨x, List.mem_cons_of_mem _ hx, hcx⟩
        · cases hjeq
          exact Or.inr ⟨js, rfl, hcomp⟩
      · split at h
        · simp at h
        · split at h
          · simp at h
          · rename_i cs hcs
            split at h
            · rename_i jstat1 jstat2 hjseq hcseq
              split at h
              · rename_i hcompl
                refine Or.inr ⟨js, rfl, ?_⟩
                simp [jsCompleted, hjseq, hcompl]
              · have h2 : (monitorRun MonState.pollJob rest).2 =
                    Outcome.ok := by
                  simpa using congrArg Prod.snd h
                rcases ih MonState.pollJob
                    (monitorRun MonState.pollJob rest).1
                    (show monitorRun MonState.pollJob rest =
                      ((monitorRun MonState.pollJob rest).1,
                        Outcome.ok) by rw [← h2]) with hmem | ⟨js2, hjeq, _⟩
                · obtain ⟨x, hx, hcx⟩ := hmem
                  exact Or.inl ⟨x, List.mem_cons_of_mem _ hx, hcx⟩
                · exact absurd hjeq (by simp)
            · simp at h

theorem monitorRun_nc_exhausts (script : List Response) :
    (∀ r ∈ script, nonCompletedPoll r) → ∀ st, stOk st →
    (monitorRun st script).2 = Outcome.exhausted := by
  induction script with
  | nil =>
    intro _ st _
    cases st <;> simp [monitorRun]
  | cons r rest ih =>
    intro hall st hst
    obtain ⟨h200, js, v, hres, hstat, hnc⟩ := hall r (List.mem_cons_self ..)
    have hall2 : ∀ x ∈ rest, nonCompletedPoll x := fun x hx =>
      hall x (List.mem_cons_of_mem _ hx)
    cases st with
    | pollJob =>
      simp only [monitorRun, h200, isHttpError_200, hres, Bool.false_eq_true,
        if_false]
      exact ih hall2 (.pollCluster js) ⟨v, hstat, hnc⟩
    | pollCluster js2 =>
      obtain ⟨v2, hstat2, hnc2⟩ := hst
      simp only [monitorRun, h200, isHttpError_200, hres, hstat, hstat2,
        hnc2, Bool.false_eq_true, if_false]
      simp only [show (200 = 404) = False by simp, if_false]
      exact ih hall2 .pollJob trivial

/-- C6: the monitor loop exits normally only on a "Completed" job status:
whenever a run returns normally, some scripted response carried
`results[0]["status"] == "Completed"`; and for every script of HTTP 200
responses whose statuses never equal "Completed" (failed, cancelled, or any
other value), the loop consumes the entire script and keeps polling, never
exiting. -/
theorem monitor_exits_only_on_completed :
    (∀ (script : List Response) (tr : List MonCall),
      monitor script = (tr, Outcome.ok) →
      ∃ r ∈ script, isCompletedResp r = true) ∧
    (∀ script : List Response, (∀ r ∈ script, nonCompletedPoll r) →
      (monitor script).2 = Outcome.exhausted) := by
  constructor
  · intro script tr h
    rcases monitorRun_ok_mem script .pollJob tr h with hmem | ⟨js, hjs, _⟩
    · exact hmem
    · exact absurd hjs (by simp)
  · intro script hall
    exact monitorRun_nc_exhausts script hall .pollJob trivial

theorem monitor_exits_only_on_completed_witness :
    (∃ r ∈ [statusResp "Completed", statusResp "x"],
      isCompletedResp r = true) ∧
    (monitor [statusResp "Running", statusResp "x"]).2 =
      Outcome.exhausted := by
  constructor
  · exact monitor_exits_only_on_completed.1
      [statusResp "Completed", statusResp "x"] [.jobPoll, .clusterPoll] rfl
  · refine monitor_exits_only_on_completed.2
      [statusResp "Running", statusResp "x"] ?_
    intro r hr
    rcases List.mem_cons.mp hr with rfl | hr2
    · exact ⟨rfl, .obj [("status", .str "Running")], .str "Running",
        rfl, rfl, rfl⟩
    · rcases List.mem_cons.mp hr2 with rfl | h3
      · exact ⟨rfl, .obj [("status", .str "x")], .str "x", rfl, rfl, rfl⟩
      · cases h3

theorem cluster_status_retry_witness :
    monitorRun (.pollCluster (.obj [("status", .str "Running")]))
        (List.replicate 2 ⟨404, .null⟩ ++ statusResp "Up" :: []) =
      (List.replicate 3 MonCall.clusterPoll ++
          (monitorRun .pollJob []).1,
        (monitorRun .pollJob []).2) ∧
    monitor (statusResp "Running" ::
        (List.replicate 2 ⟨404, .null⟩ ++ statusResp "Up" :: [])) =
      (.jobPoll :: (List.replicate 3 MonCall.clusterPoll ++
          (monitorRun .pollJob []).1),
        (monitorRun .pollJob []).2) :=
  cluster_status_retry 2 ⟨404, .null⟩ (statusResp "Up") []
    (.obj [("status", .str "Running")]) (.str "Running") rfl
    ⟨rfl, .obj [("status", .str "Up")], .str "Up", rfl, rfl⟩ rfl rfl

/-! ## Claims about `_link_outfile_with_folder` -/

/-- C1: when the `.sif` search returns a results list whose length is not
one, the operation raises with only the search call issued: no
folder-listing, folder-creation, folder-association or type-change call
happens. When it returns exactly one result, the run issues the folder
lookup, creates the folder when none matches (or reuses the matching one),
then issues the association call and the type-change call, in that
order. -/
theorem link_outfile_sequence :
    (∀ (r1 : Response) (rest : List Response) (files : List JsonVal),
      isHttpError r1.status_code = false →
      jsonResultsList r1.body = some files → files.length ≠ 1 →
      linkOutfile (r1 :: rest) = ([.sifSearch], .exn)) ∧
    (∀ (r1 r2 r3 r4 r5 : Response) (f sifId : JsonVal)
        (folders : List JsonVal) (folderId : JsonVal),
      isHttpError r1.status_code = false →
      jsonResultsList r1.body = some [f] → f.getField "id" = some sifId →
      isHttpError r2.status_code = false → r2.body = .arr folders →
      filterByName folders "apptainer_images" = some [] →
      r3.status_code = 201 → r3.body.getField "id" = some folderId →
      isHttpError r4.status_code = false → isHttpError r5.status_code = false →
      linkOutfile [r1, r2, r3, r4, r5] =
        ([.sifSearch, .folderList, .folderCreate,
          .folderAssociate folderId sifId, .typeChange sifId], .ok)) ∧
    (∀ (r1 r2 r4 r5 : Response) (f sifId : JsonVal)
        (folders : List JsonVal) (f0 : JsonVal) (fs : List JsonVal)
        (folderId : JsonVal),
      isHttpError r1.status_code = false →
      jsonResultsList r1.body = some [f] → f.getField "id" = some sifId →
      isHttpError r2.status_code = false → r2.body = .arr folders →
      filterByName folders "apptainer_images" = some (f0 :: fs) →
      f0.getField "id" = some folderId →
      isHttpError r4.status_code = false → isHttpError r5.status_code = false →
      linkOutfile [r1, r2, r4, r5] =
        ([.sifSearch, .folderList, .folderAssociate folderId sifId,
          .typeChange sifId], .ok)) := by
  refine ⟨?_, ?_, ?_⟩
  · intro r1 rest files h1 hres hlen
    match files with
    | [] => simp [linkOutfile, h1, hres]
    | [a] => exact absurd (rfl : ([a] : List JsonVal).length = 1) hlen
    | a :: b :: bs => simp [linkOutfile, h1, hres]
  · intro r1 r2 r3 r4 r5 f sifId folders folderId h1 hres hf h2 hb2 hfil
      h3 hid h4 h5
    simp [linkOutfile, folderPhase, assocAndTag, h1, hres, hf, h2, hb2,
      hfil, h3, hid, h4, h5]
  · intro r1 r2 r4 r5 f sifId folders f0 fs folderId h1 hres hf h2 hb2
      hfil hf0 h4 h5
    simp [linkOutfile, folderPhase, assocAndTag, h1, hres, hf, h2, hb2,
      hfil, hf0, h4, h5]

theorem link_outfile_sequence_witness :
    linkOutfile [⟨200, .obj [("results", .arr [])]⟩] =
      ([.sifSearch], .exn) ∧
    linkOutfile [⟨200, .obj [("results", .arr [.obj [("id", .str "S")]])]⟩,
        ⟨200, .arr []⟩, ⟨201, .obj [("id", .str "F")]⟩, ⟨200, .null⟩,
        ⟨200, .null⟩] =
      ([.sifSearch, .folderList, .folderCreate,
        .folderAssociate (.str "F") (.str "S"), .typeChange (.str "S")],
        .ok) ∧
    linkOutfile [⟨200, .obj [("results", .arr [.obj [("id", .str "S")]])]⟩,
        ⟨200, .arr [.obj [("name", .str "apptainer_images"),
          ("id", .str "F0")]]⟩, ⟨200, .null⟩, ⟨200, .null⟩] =
      ([.sifSearch, .folderList, .folderAssociate (.str "F0") (.str "S"),
        .typeChange (.str "S")], .ok) :=
  ⟨link_outfile_sequence.1 ⟨200, .obj [("results", .arr [])]⟩ [] []
      rfl rfl (by decide),
   link_outfile_sequence.2.1 ⟨200, .obj [("results",
        .arr [.obj [("id", .str "S")]])]⟩ ⟨200, .arr []⟩
      ⟨201, .obj [("id", .str "F")]⟩ ⟨200, .null⟩ ⟨200, .null⟩
      (.obj [("id", .str "S")]) (.str "S") [] (.str "F")
      rfl rfl rfl rfl rfl rfl rfl rfl rfl rfl,
   link_outfile_sequence.2.2 ⟨200, .obj [("results",
        .arr [.obj [("id", .str "S")]])]⟩
      ⟨200, .arr [.obj [("name", .str "apptainer_images"),
        ("id", .str "F0")]]⟩ ⟨200, .null⟩ ⟨200, .null⟩
      (.obj [("id", .str "S")]) (.str "S")
      [.obj [("name", .str "apptainer_images"), ("id", .str "F0")]]
      (.obj [("name", .str "apptainer_images"), ("id", .str "F0")]) []
      (.str "F0") rfl rfl rfl rfl rfl rfl rfl rfl rfl⟩

/-- C2 counterexample: a 302 folder-creation response is neither 2xx nor
400, yet the run does not abort: `raise_for_status` is only called for
status codes outside the pair 201 and 400 and only raises for 400..599, so
a 302 response with an id in its body is accepted and the run completes.
This refutes the claim that every non-2xx status other than 400 aborts. -/
theorem folder_create_non2xx_counterexample :
    (302 < 200 ∨ 300 ≤ 302) ∧ 302 ≠ 400 ∧
    linkOutfile [⟨200, .obj [("results", .arr [.obj [("id", .str "S")]])]⟩,
        ⟨200, .arr []⟩, ⟨302, .obj [("id", .str "F")]⟩, ⟨200, .null⟩,
        ⟨200, .null⟩] =
      ([.sifSearch, .folderList, .folderCreate,
        .folderAssociate (.str "F") (.str "S"), .typeChange (.str "S")],
        .ok) :=
  ⟨Or.inr (by decide), by decide, rfl⟩

/-- C2 (amended): when the folder-creation POST is issued, both a 201 and a
400 response yield a usable folder id extracted from the response body,
which flows into the subsequent folder-association call; any other status
code in 400..599 aborts the run with an error (statuses outside 400..599
are not checked by `raise_for_status` and also proceed). -/
theorem folder_create_status_handling :
    (∀ (r1 r2 r3 r4 r5 : Response) (f sifId : JsonVal)
        (folders : List JsonVal) (folderId : JsonVal),
      isHttpError r1.status_code = false →
      jsonResultsList r1.body = some [f] → f.getField "id" = some sifId →
      isHttpError r2.status_code = false → r2.body = .arr folders →
      filterByName folders "apptainer_images" = some [] →
      (r3.status_code = 201 ∨ r3.status_code = 400) →
      r3.body.getField "id" = some folderId →
      isHttpError r4.status_code = false → isHttpError r5.status_code = false →
      linkOutfile [r1, r2, r3, r4, r5] =
        ([.sifSearch, .folderList, .folderCreate,
          .folderAssociate folderId sifId, .typeChange sifId], .ok)) ∧
    (∀ (r1 r2 r3 : Response) (rest : List Response) (f sifId : JsonVal)
        (folders : List JsonVal),
      isHttpError r1.status_code = false →
      jsonResultsList r1.body = some [f] → f.getField "id" = some sifId →
      isHttpError r2.status_code = false → r2.body = .arr folders →
      filterByName folders "apptainer_images" = some [] →
      r3.status_code ≠ 201 → r3.status_code ≠ 400 →
      isHttpError r3.status_code = true →
      linkOutfile (r1 :: r2 :: r3 :: rest) =
        ([.sifSearch, .folderList, .folderCreate], .exn)) := by
  constructor
  · intro r1 r2 r3 r4 r5 f sifId folders folderId h1 hres hf h2 hb2 hfil
      h3 hid h4 h5
    rcases h3 with h3 | h3 <;>
      simp [linkOutfile, folderPhase, assocAndTag, h1, hres, hf, h2, hb2,
        hfil, h3, hid, h4, h5]
  · intro r1 r2 r3 rest f sifId folders h1 hres hf h2 hb2 hfil hn1 hn2 herr
    simp [linkOutfile, folderPhase, h1, hres, hf, h2, hb2, hfil, hn1, hn2,
      herr]

theorem folder_create_status_handling_witness :
    linkOutfile [⟨200, .obj [("results", .arr [.obj [("id", .str "S")]])]⟩,
        ⟨200, .arr []⟩, ⟨400, .obj [("id", .str "F")]⟩, ⟨200, .null⟩,
        ⟨200, .null⟩] =
      ([.sifSearch, .folderList, .folderCreate,
        .folderAssociate (.str "F") (.str "S"), .typeChange (.str "S")],
        .ok) ∧
    linkOutfile [⟨200, .obj [("results", .arr [.obj [("id", .str "S")]])]⟩,
        ⟨200, .arr []⟩, ⟨500, .null⟩] =
      ([.sifSearch, .folderList, .folderCreate], .exn) :=
  ⟨folder_create_status_handling.1 ⟨200, .obj [("results",
        .arr [.obj [("id", .str "S")]])]⟩ ⟨200, .arr []⟩
      ⟨400, .obj [("id", .str "F")]⟩ ⟨200, .null⟩ ⟨200, .null⟩
      (.obj [("id", .str "S")]) (.str "S") [] (.str "F")
      rfl rfl rfl rfl rfl rfl (Or.inr rfl) rfl rfl rfl,
   folder_create_status_handling.2 ⟨200, .obj [("results",
        .arr [.obj [("id", .str "S")]])]⟩ ⟨200, .arr []⟩ ⟨500, .null⟩ []
      (.obj [("id", .str "S")]) (.str "S") []
      rfl rfl rfl rfl rfl rfl (by decide) (by decide) rfl⟩

end BuildImage
